import Mathlib

/-!
A shallow embedding of the print dispatcher in
`src/frontend/src-tauri/src/lib.rs` (the command `print_thermal_receipt`),
together with a byte-level model of Rust `String::from_utf8` validation and a
model of POSIX single-quote shell parsing, and theorems about the dispatch
behaviour. The operating system is a parameter: a function from a process
invocation to its outcome.
-/

namespace PosDispatch

/-- The single-quote character (code point 39). -/
def squote : Char := Char.ofNat 39

/-- The backslash character (code point 92). -/
def bslash : Char := Char.ofNat 92

/-- Rust `str::replace` for a one-character pattern, at the character level:
every occurrence of the character `c` becomes the segment `r`; every other
character is kept unchanged. -/
def replaceChar (c : Char) (r : List Char) : List Char → List Char
  | [] => []
  | a :: rest => if a = c then r ++ replaceChar c r rest else a :: replaceChar c r rest

/-- Line 30 of lib.rs: `receipt_data.replace(...)` with the single quote as the
pattern and, as the replacement, the four characters quote, backslash, quote,
quote (close the quote, insert an escaped quote, reopen the quote). -/
def escaped_data (receipt_data : String) : String :=
  String.mk (replaceChar squote [squote, bslash, squote, squote] receipt_data.data)

/-- Line 33 of lib.rs: the `format!` call building the command string: the text
`print print ` followed by an opening quote, the escaped data, and a closing
quote. -/
def command (receipt_data : String) : String :=
  "print print " ++ String.mk [squote] ++ escaped_data receipt_data ++ String.mk [squote]

/-- A process invocation: the program and its argument vector, as assembled by
`Command::new(program)` followed by the `arg` calls. -/
structure SpawnSpec where
  program : String
  args : List String
  deriving DecidableEq

/-- What the operating system gives back for one attempted spawn: either the
spawn itself fails with a message (the `map_err` branch after `.output()`), or
the process runs to completion with an exit-status flag (`status.success()`)
and the captured stdout and stderr byte streams. -/
inductive SpawnOutcome where
  | err (msg : String)
  | ok (success : Bool) (stdout stderr : List Nat)
  deriving DecidableEq

/-- Lines 37 to 42 of lib.rs: the dispatcher always invokes
`bash -l -i -c <command receipt_data>`. -/
def bashInvocation (receipt_data : String) : SpawnSpec :=
  ⟨"bash", ["-l", "-i", "-c", command receipt_data]⟩

/-- Strict UTF-8 validation and decoding as Rust `String::from_utf8` performs
it. `i` is the byte index of the suffix being examined inside the whole input.
On the first ill-formed sequence the result is the pair
`(valid_up_to, error_len)` carried by a Rust `Utf8Error`: `error_len` is `none`
when the input ended in the middle of a sequence, and otherwise the number of
unexpected bytes. Overlong encodings, surrogate code points and code points
above 0x10FFFF are rejected, matching the Rust validation ranges. -/
def utf8DecodeFrom (i : Nat) : List Nat → Except (Nat × Option Nat) (List Char)
  | [] => .ok []
  | b0 :: rest =>
    if b0 ≤ 0x7F then
      (utf8DecodeFrom (i + 1) rest).map (Char.ofNat b0 :: ·)
    else if b0 < 0xC2 then .error (i, some 1)
    else if b0 ≤ 0xDF then
      match rest with
      | [] => .error (i, none)
      | b1 :: rest1 =>
        if 0x80 ≤ b1 ∧ b1 ≤ 0xBF then
          (utf8DecodeFrom (i + 2) rest1).map
            (Char.ofNat ((b0 - 0xC0) * 0x40 + (b1 - 0x80)) :: ·)
        else .error (i, some 1)
    else if b0 ≤ 0xEF then
      match rest with
      | [] => .error (i, none)
      | b1 :: rest1 =>
        if (if b0 = 0xE0 then 0xA0 else 0x80) ≤ b1 ∧ b1 ≤ (if b0 = 0xED then 0x9F else 0xBF) then
          match rest1 with
          | [] => .error (i, none)
          | b2 :: rest2 =>
            if 0x80 ≤ b2 ∧ b2 ≤ 0xBF then
              (utf8DecodeFrom (i + 3) rest2).map
                (Char.ofNat ((b0 - 0xE0) * 0x1000 + (b1 - 0x80) * 0x40 + (b2 - 0x80)) :: ·)
            else .error (i, some 2)
        else .error (i, some 1)
    else if b0 ≤ 0xF4 then
      match rest with
      | [] => .error (i, none)
      | b1 :: rest1 =>
        if (if b0 = 0xF0 then 0x90 else 0x80) ≤ b1 ∧ b1 ≤ (if b0 = 0xF4 then 0x8F else 0xBF) then
          match rest1 with
          | [] => .error (i, none)
          | b2 :: rest2 =>
            if 0x80 ≤ b2 ∧ b2 ≤ 0xBF then
              match rest2 with
              | [] => .error (i, none)
              | b3 :: rest3 =>
                if 0x80 ≤ b3 ∧ b3 ≤ 0xBF then
                  (utf8DecodeFrom (i + 4) rest3).map
                    (Char.ofNat ((b0 - 0xF0) * 0x40000 + (b1 - 0x80) * 0x1000 +
                      (b2 - 0x80) * 0x40 + (b3 - 0x80)) :: ·)
                else .error (i, some 3)
            else .error (i, some 2)
        else .error (i, some 1)
    else .error (i, some 1)

/-- Rust `String::from_utf8` on a byte list: the decoded string, or the
`Utf8Error` data `(valid_up_to, error_len)`. -/
def from_utf8 (bytes : List Nat) : Except (Nat × Option Nat) String :=
  (utf8DecodeFrom 0 bytes).map String.mk

/-- The `Display` text of a Rust `Utf8Error`, which `FromUtf8Error` reuses: it
names only the error position and length, never the offending bytes. -/
def utf8ErrorDisplay : Nat × Option Nat → String
  | (i, some n) =>
      "invalid utf-8 sequence of " ++ toString n ++ " bytes from index " ++ toString i
  | (i, none) => "incomplete utf-8 byte sequence from index " ++ toString i

/-- Lines 27 to 55 of lib.rs: the dispatcher. The operating system is the
parameter `spawn`. The first component of the result is the
`Result<String, String>` value the Rust function returns; the second component
records the process invocations the call performed, in order. -/
def print_thermal_receipt (spawn : SpawnSpec → SpawnOutcome) (receipt_data : String) :
    Except String String × List SpawnSpec :=
  match spawn (bashInvocation receipt_data) with
  | .err e =>
      (.error ("Failed to execute command: " ++ e), [bashInvocation receipt_data])
  | .ok success stdout stderr =>
      if success then
        match from_utf8 stdout with
        | .ok s => (.ok s, [bashInvocation receipt_data])
        | .error e =>
            (.error ("Invalid UTF-8 in command output: " ++ utf8ErrorDisplay e),
              [bashInvocation receipt_data])
      else
        match from_utf8 stderr with
        | .ok s => (.error ("Command failed: " ++ s), [bashInvocation receipt_data])
        | .error e =>
            (.error ("Invalid UTF-8 in error output: " ++ utf8ErrorDisplay e),
              [bashInvocation receipt_data])

instance {ε α : Type} [DecidableEq ε] [DecidableEq α] : DecidableEq (Except ε α) := fun a b =>
  match a, b with
  | .ok x, .ok y =>
      if h : x = y then isTrue (congrArg Except.ok h)
      else isFalse (fun hc => h (Except.ok.inj hc))
  | .ok _, .error _ => isFalse (fun hc => Except.noConfusion hc)
  | .error _, .ok _ => isFalse (fun hc => Except.noConfusion hc)
  | .error x, .error y =>
      if h : x = y then isTrue (congrArg Except.error h)
      else isFalse (fun hc => h (Except.error.inj hc))

/-- Modelled from the spec: POSIX-shell word unquoting, restricted to the
constructs the round-trip property needs (single-quoted spans, and backslash
escapes outside quotes); the shell itself is an external program, not code of
this repository. The state `st` is 0 outside any quoting construct, 1 inside a
single-quoted span, and 2 right after a backslash outside quotes. Inside a
span every character up to the next single quote is literal; outside, a
backslash makes the following character literal and a single quote opens a
span. A word that ends inside a span or right after a backslash is malformed,
giving `none`. -/
def shellUnquote (st : Nat) : List Char → Option (List Char)
  | [] => if st = 0 then some [] else none
  | c :: rest =>
    if st = 1 then
      if c = squote then shellUnquote 0 rest
      else (shellUnquote 1 rest).map (c :: ·)
    else if st = 2 then
      (shellUnquote 0 rest).map (c :: ·)
    else
      if c = squote then shellUnquote 1 rest
      else if c = bslash then shellUnquote 2 rest
      else (shellUnquote 0 rest).map (c :: ·)

/-- The input of the concrete scenario in the spec: the letter O, a single
quote, the text `Brien`, a single quote, and the text `s Cafe`. -/
def obrien : String :=
  "O" ++ String.mk [squote] ++ "Brien" ++ String.mk [squote] ++ "s Cafe"

/-- The escaped form the spec expects for `obrien`: each single quote becomes
quote, backslash, quote, quote. -/
def obrienEscaped : String :=
  "O" ++ String.mk [squote, bslash, squote, squote] ++ "Brien" ++
    String.mk [squote, bslash, squote, squote] ++ "s Cafe"

/-- A stub operating system for witnesses: every spawn reports success, with
the two bytes of the text `hi` on stdout and nothing on stderr. -/
def stubOkHi : SpawnSpec → SpawnOutcome := fun _ => .ok true [104, 105] []

/-- A stub operating system: the same stdout as `stubOkHi` but a nonempty, and
not even UTF-8 valid, stderr stream. -/
def stubOkHiNoise : SpawnSpec → SpawnOutcome := fun _ => .ok true [104, 105] [255]

/-- A stub operating system: success with nothing written to either stream. -/
def stubOkSilent : SpawnSpec → SpawnOutcome := fun _ => .ok true [] []

/-- A stub operating system: every spawn reports a failing exit status, with
the byte of the letter b on stderr. -/
def stubFailB : SpawnSpec → SpawnOutcome := fun _ => .ok false [] [98]

/-- A stub operating system: failing exit status, with a lone two-byte lead
byte 0xC3 on stderr, an incomplete UTF-8 sequence. -/
def stubFailBadStderr : SpawnSpec → SpawnOutcome := fun _ => .ok false [] [195]

/-- A stub operating system on which every spawn attempt itself fails. -/
def stubSpawnFail : SpawnSpec → SpawnOutcome :=
  fun _ => .err "No such file or directory (os error 2)"

lemma replaceChar_eq_flatMap (c : Char) (r : List Char) (l : List Char) :
    replaceChar c r l = l.flatMap (fun a => if a = c then r else [a]) := by
  induction l with
  | nil => rfl
  | cons a rest ih => by_cases h : a = c <;> simp [replaceChar, h, ih]

lemma bslash_ne_squote : bslash ≠ squote := by decide

lemma shellUnquote_quad (t : List Char) :
    shellUnquote 1 (squote :: bslash :: squote :: squote :: t) =
      (shellUnquote 1 t).map (squote :: ·) := by
  simp [shellUnquote, bslash_ne_squote]

lemma shellUnquote_cons (c : Char) (t : List Char) (h : c ≠ squote) :
    shellUnquote 1 (c :: t) = (shellUnquote 1 t).map (c :: ·) := by
  simp [shellUnquote, h]

lemma shellUnquote_escape (s : List Char) :
    shellUnquote 1 (replaceChar squote [squote, bslash, squote, squote] s ++ [squote]) =
      some s := by
  induction s with
  | nil => simp [replaceChar, shellUnquote]
  | cons c rest ih =>
    by_cases h : c = squote
    · subst h
      have h4 : replaceChar squote [squote, bslash, squote, squote] (squote :: rest) ++ [squote] =
          squote :: bslash :: squote :: squote ::
            (replaceChar squote [squote, bslash, squote, squote] rest ++ [squote]) := by
        simp [replaceChar]
      rw [h4, shellUnquote_quad, ih]
      rfl
    · have hc : replaceChar squote [squote, bslash, squote, squote] (c :: rest) ++ [squote] =
          c :: (replaceChar squote [squote, bslash, squote, squote] rest ++ [squote]) := by
        simp [replaceChar, h]
      rw [hc, shellUnquote_cons c _ h, ih]
      rfl

/-- C1: when the spawned process exits with a success status, the dispatcher
returns the UTF-8 decoding of the captured stdout bytes as a success; when
those bytes are not valid UTF-8 it returns the encoding-error failure, and in
particular no success value at all, even though the process exited
successfully. -/
theorem claim_c1_success_decodes_stdout (spawn : SpawnSpec → SpawnOutcome) (s : String)
    (stdout stderr : List Nat)
    (h : spawn (bashInvocation s) = SpawnOutcome.ok true stdout stderr) :
    (∀ t, from_utf8 stdout = Except.ok t → (print_thermal_receipt spawn s).1 = Except.ok t) ∧
    (∀ e, from_utf8 stdout = Except.error e →
      (print_thermal_receipt spawn s).1 =
        Except.error ("Invalid UTF-8 in command output: " ++ utf8ErrorDisplay e) ∧
      ∀ t, (print_thermal_receipt spawn s).1 ≠ Except.ok t) := by
  constructor
  · intro t ht
    simp [print_thermal_receipt, h, ht]
  · intro e he
    constructor
    · simp [print_thermal_receipt, h, he]
    · intro t
      simp [print_thermal_receipt, h, he]

/-- C1, witnessed on a stub process writing the text `hi` to stdout. -/
theorem claim_c1_witness :
    stubOkHi (bashInvocation "receipt") = SpawnOutcome.ok true [104, 105] [] ∧
    ((∀ t, from_utf8 [104, 105] = Except.ok t →
        (print_thermal_receipt stubOkHi "receipt").1 = Except.ok t) ∧
      (∀ e, from_utf8 [104, 105] = Except.error e →
        (print_thermal_receipt stubOkHi "receipt").1 =
          Except.error ("Invalid UTF-8 in command output: " ++ utf8ErrorDisplay e) ∧
        ∀ t, (print_thermal_receipt stubOkHi "receipt").1 ≠ Except.ok t)) :=
  ⟨rfl, claim_c1_success_decodes_stdout stubOkHi "receipt" [104, 105] [] rfl⟩

/-- C2, counterexample: for a stub process that exits with a failing status and
writes the single byte of the letter b to stderr, the dispatcher does not
return the decoded stderr text verbatim as the failure description: it returns
that text with the fixed text `Command failed: ` prepended. -/
theorem claim_c2_counterexample :
    (print_thermal_receipt stubFailB "x").1 ≠ Except.error "b" ∧
    from_utf8 [98] = Except.ok "b" ∧
    (print_thermal_receipt stubFailB "x").1 = Except.error ("Command failed: " ++ "b") := by
  refine ⟨?_, rfl, rfl⟩
  decide

/-- C2, amended: when the spawned process exits with a failing status and its
stderr bytes decode as the text E, the dispatcher returns a failure whose
description is the fixed text `Command failed: ` followed by E; the stderr text
is relayed in full, but with that fixed text added in front. -/
theorem claim_c2_stderr_relayed_with_added_text (spawn : SpawnSpec → SpawnOutcome)
    (s : String) (stdout stderr : List Nat) (E : String)
    (h : spawn (bashInvocation s) = SpawnOutcome.ok false stdout stderr)
    (hdec : from_utf8 stderr = Except.ok E) :
    (print_thermal_receipt spawn s).1 = Except.error ("Command failed: " ++ E) := by
  simp [print_thermal_receipt, h, hdec]

/-- C2, witnessed on a stub process writing the letter b to stderr. -/
theorem claim_c2_witness :
    stubFailB (bashInvocation "x") = SpawnOutcome.ok false [] [98] ∧
    from_utf8 [98] = Except.ok "b" ∧
    (print_thermal_receipt stubFailB "x").1 = Except.error ("Command failed: " ++ "b") :=
  ⟨rfl, rfl, claim_c2_stderr_relayed_with_added_text stubFailB "x" [] [98] "b" rfl rfl⟩

/-- C3: the shell-escaping transform replaces every single quote by the four
characters quote, backslash, quote, quote and keeps every other character, and
on the concrete scenario input it produces exactly the escaped form the spec
names. -/
theorem claim_c3_escape :
    (∀ s : String,
      (escaped_data s).data =
        s.data.flatMap (fun a => if a = squote then [squote, bslash, squote, squote] else [a])) ∧
    escaped_data obrien = obrienEscaped := by
  constructor
  · intro s
    exact replaceChar_eq_flatMap squote _ s.data
  · decide

/-- C4: embedding the escaped text between single quotes and applying the
shell single-quote parsing yields back exactly the original text, for every
input string. -/
theorem claim_c4_roundtrip (s : String) :
    shellUnquote 0 (squote :: (escaped_data s).data ++ [squote]) = some s.data := by
  have h1 : shellUnquote 0 (squote :: (escaped_data s).data ++ [squote]) =
      shellUnquote 1 ((escaped_data s).data ++ [squote]) := by
    simp [shellUnquote]
  rw [h1]
  exact shellUnquote_escape s.data

/-- C5: when the spawn itself fails, the dispatcher immediately returns a
failure carrying a description of the spawn error; the outcome holds no output
streams, so no decoding happens, and the full result, including the single
recorded invocation, is determined by the spawn error alone. -/
theorem claim_c5_spawn_error (spawn : SpawnSpec → SpawnOutcome) (s e : String)
    (h : spawn (bashInvocation s) = SpawnOutcome.err e) :
    print_thermal_receipt spawn s =
      (Except.error ("Failed to execute command: " ++ e), [bashInvocation s]) := by
  simp [print_thermal_receipt, h]

/-- C5, witnessed on a stub whose every spawn attempt fails. -/
theorem claim_c5_witness :
    stubSpawnFail (bashInvocation "r") =
      SpawnOutcome.err "No such file or directory (os error 2)" ∧
    print_thermal_receipt stubSpawnFail "r" =
      (Except.error ("Failed to execute command: " ++ "No such file or directory (os error 2)"),
        [bashInvocation "r"]) :=
  ⟨rfl, claim_c5_spawn_error stubSpawnFail "r" "No such file or directory (os error 2)" rfl⟩

/-- C6: the dispatcher never inspects the input beyond escaping it into the
fixed command template: the one invocation is bash with the flags -l, -i, -c
and the command string made of the text `print print `, an opening quote, the
escaped input and a closing quote; and the whole result depends on the input
only through the outcome the operating system gives for that one invocation. -/
theorem claim_c6_fixed_command (spawn spawn2 : SpawnSpec → SpawnOutcome) (s : String)
    (h : spawn2 (bashInvocation s) = spawn (bashInvocation s)) :
    bashInvocation s =
      SpawnSpec.mk "bash" ["-l", "-i", "-c",
        "print print " ++ String.mk [squote] ++ escaped_data s ++ String.mk [squote]] ∧
    print_thermal_receipt spawn2 s = print_thermal_receipt spawn s := by
  refine ⟨rfl, ?_⟩
  simp [print_thermal_receipt, h]

/-- C6, witnessed at a concrete input on the `hi` stub. -/
theorem claim_c6_witness :
    stubOkHi (bashInvocation "r") = stubOkHi (bashInvocation "r") ∧
    (bashInvocation "r" =
        SpawnSpec.mk "bash" ["-l", "-i", "-c",
          "print print " ++ String.mk [squote] ++ escaped_data "r" ++ String.mk [squote]] ∧
      print_thermal_receipt stubOkHi "r" = print_thermal_receipt stubOkHi "r") :=
  ⟨rfl, claim_c6_fixed_command stubOkHi stubOkHi "r" rfl⟩

/-- C7: a process that exits successfully and writes nothing to stdout yields
the empty string as a success, not an error. -/
theorem claim_c7_empty_stdout (spawn : SpawnSpec → SpawnOutcome) (s : String)
    (stderr : List Nat)
    (h : spawn (bashInvocation s) = SpawnOutcome.ok true [] stderr) :
    (print_thermal_receipt spawn s).1 = Except.ok "" := by
  have hd : from_utf8 [] = Except.ok "" := rfl
  simp [print_thermal_receipt, h, hd]

/-- C7, witnessed on the silent stub. -/
theorem claim_c7_witness :
    stubOkSilent (bashInvocation "r") = SpawnOutcome.ok true [] [] ∧
    (print_thermal_receipt stubOkSilent "r").1 = Except.ok "" :=
  ⟨rfl, claim_c7_empty_stdout stubOkSilent "r" [] rfl⟩

/-- C8: every call performs exactly one process invocation, whatever the
operating system answers: the recorded invocation list is the one bash call
and nothing else, on the spawn-failure path as on every other path. -/
theorem claim_c8_single_spawn (spawn : SpawnSpec → SpawnOutcome) (s : String) :
    (print_thermal_receipt spawn s).2 = [bashInvocation s] ∧
    (print_thermal_receipt spawn s).2.length = 1 := by
  have h2 : (print_thermal_receipt spawn s).2 = [bashInvocation s] := by
    unfold print_thermal_receipt
    split
    · rfl
    · split
      · split <;> rfl
      · split <;> rfl
  exact ⟨h2, by rw [h2]; rfl⟩

/-- C9: the result never mixes the streams: on a success status it is a
function of the stdout bytes alone, and on a failure status a function of the
stderr bytes alone, so two runs agreeing on the status and on the relevant
stream agree on the whole result. -/
theorem claim_c9_noninterference (spawn1 spawn2 : SpawnSpec → SpawnOutcome) (s : String)
    (succ : Bool) (out1 err1 out2 err2 : List Nat)
    (h1 : spawn1 (bashInvocation s) = SpawnOutcome.ok succ out1 err1)
    (h2 : spawn2 (bashInvocation s) = SpawnOutcome.ok succ out2 err2)
    (hsame : if succ then out1 = out2 else err1 = err2) :
    print_thermal_receipt spawn1 s = print_thermal_receipt spawn2 s := by
  cases succ with
  | false =>
    have he : err1 = err2 := hsame
    subst he
    simp [print_thermal_receipt, h1, h2]
  | true =>
    have ho : out1 = out2 := hsame
    subst ho
    simp [print_thermal_receipt, h1, h2]

/-- C9, witnessed on two stubs sharing stdout and differing in stderr. -/
theorem claim_c9_witness :
    stubOkHi (bashInvocation "r") = SpawnOutcome.ok true [104, 105] [] ∧
    stubOkHiNoise (bashInvocation "r") = SpawnOutcome.ok true [104, 105] [255] ∧
    (if (true : Bool) then ([104, 105] : List Nat) = [104, 105]
      else ([] : List Nat) = [255]) ∧
    print_thermal_receipt stubOkHi "r" = print_thermal_receipt stubOkHiNoise "r" :=
  ⟨rfl, rfl, rfl,
    claim_c9_noninterference stubOkHi stubOkHiNoise "r" true [104, 105] [] [104, 105] [255]
      rfl rfl rfl⟩

/-- C10: a failing process whose stderr bytes are not valid UTF-8 yields a
failure whose description is the fixed text `Invalid UTF-8 in error output: `
followed by the display of the decoding-error data, which names only the error
position and length, never the stderr bytes themselves; and the result is a
failure, never a success. -/
theorem claim_c10_stderr_encoding (spawn : SpawnSpec → SpawnOutcome) (s : String)
    (stdout stderr : List Nat) (e : Nat × Option Nat)
    (h : spawn (bashInvocation s) = SpawnOutcome.ok false stdout stderr)
    (hdec : from_utf8 stderr = Except.error e) :
    (print_thermal_receipt spawn s).1 =
      Except.error ("Invalid UTF-8 in error output: " ++ utf8ErrorDisplay e) ∧
    ∀ t, (print_thermal_receipt spawn s).1 ≠ Except.ok t := by
  constructor
  · simp [print_thermal_receipt, h, hdec]
  · intro t
    simp [print_thermal_receipt, h, hdec]

/-- C10, witnessed on a stub writing an incomplete UTF-8 sequence to stderr. -/
theorem claim_c10_witness :
    stubFailBadStderr (bashInvocation "r") = SpawnOutcome.ok false [] [195] ∧
    from_utf8 [195] = Except.error (0, none) ∧
    ((print_thermal_receipt stubFailBadStderr "r").1 =
        Except.error ("Invalid UTF-8 in error output: " ++ utf8ErrorDisplay (0, none)) ∧
      ∀ t, (print_thermal_receipt stubFailBadStderr "r").1 ≠ Except.ok t) :=
  ⟨rfl, rfl, claim_c10_stderr_encoding stubFailBadStderr "r" [] [195] (0, none) rfl rfl⟩

end PosDispatch
